import Mathlib

/-!
Verification of the Make-a-Homie frontend authentication screens.

The repository holds two React components: `Login` (src/Frontend/Login.jsx)
and `Register` (src/unnamed/part_000).  Each renders a two-field form,
POSTs `{ user_id, password }` to a fixed endpoint via axios, and on
resolution either performs its success actions (login: write
`localStorage["userId"]` and navigate to `"/profile"`; register: alert and
navigate to `"/"`) or, in the `catch` block, displays
`err.response?.data?.detail` when that JavaScript expression is truthy and
a fixed generic message otherwise.

The embedding represents each handler as the list of observable effects it
performs, in order, together with the exception (if any) escaping the
handler.  Axios resolves exactly on a 2xx response and rejects otherwise;
a rejection carries the optional `detail` string of the response body, or
nothing for a network-level failure with no response.
-/

namespace MakeAHomie

/-- Outcome of one axios POST: either a server response with a status code
and the optional `detail` field of its body, or a network-level failure
that produces no response at all. -/
inductive NetResult where
  | response (status : Nat) (detail : Option String)
  | networkFailure
deriving DecidableEq, Repr

/-- Axios resolves the promise exactly when the response status is 2xx;
a non-2xx response or a network failure rejects. -/
def axiosResolves : NetResult → Bool
  | NetResult.response status _ => decide (200 ≤ status) && decide (status < 300)
  | NetResult.networkFailure => false

/-- The value of `err.response?.data?.detail` on a rejected request:
the body's `detail` field when a response exists, otherwise nothing
(the optional chain yields `undefined`). -/
def errDetail : NetResult → Option String
  | NetResult.response _ d => d
  | NetResult.networkFailure => none

/-- JavaScript truthiness of an optional string: `undefined` and the empty
string are falsy, every other string is truthy. -/
def jsTruthy : Option String → Bool
  | none => false
  | some s => !(s == "")

/-- One observable effect of a component: a state setter, an axios POST
with its body fields, a `localStorage.setItem`, a router navigation, or a
window alert. -/
inductive Effect where
  | setUserId (value : String)
  | setPassword (value : String)
  | setError (value : String)
  | post (url : String) (user_id : String) (password : String)
  | setStorage (key : String) (value : String)
  | navigate (route : String)
  | alert (message : String)
deriving DecidableEq, Repr

def loginUrl : String := "http://127.0.0.1:8000/login"

def registerUrl : String := "http://127.0.0.1:8000/register"

def genericLoginError : String := "Login failed."

def genericRegisterError : String := "Registration failed."

def registerSuccessAlert : String := "Registration successful! Please log in."

/-- The `try` block of `handleLogin` (Login.jsx lines 15-21): the POST is
issued; if axios resolves, the identifier is stored under `"userId"` and
navigation goes to `"/profile"`; otherwise the rejection is thrown to the
`catch` block.  Returns the effects performed and the thrown error. -/
def loginTry (userId password : String) (net : NetResult) :
    List Effect × Option NetResult :=
  if axiosResolves net then
    ([Effect.post loginUrl userId password,
      Effect.setStorage "userId" userId,
      Effect.navigate "/profile"], none)
  else
    ([Effect.post loginUrl userId password], some net)

/-- The `catch` block of `handleLogin` (Login.jsx lines 22-28):
`setError(detail)` when `err.response?.data?.detail` is truthy, else
`setError("Login failed.")`. -/
def loginCatch (err : NetResult) : List Effect :=
  if jsTruthy (errDetail err) then
    [Effect.setError ((errDetail err).getD "")]
  else
    [Effect.setError genericLoginError]

/-- `handleLogin` (Login.jsx lines 11-29): clears the error, runs the
`try` block, and routes any thrown error through the `catch` block.  The
second component is the exception escaping the whole handler. -/
def handleLogin (userId password : String) (net : NetResult) :
    List Effect × Option NetResult :=
  match loginTry userId password net with
  | (effs, none) => (Effect.setError "" :: effs, none)
  | (effs, some err) => (Effect.setError "" :: (effs ++ loginCatch err), none)

/-- The `try` block of `handleRegister` (part_000 lines 15-21): the POST
is issued; if axios resolves, the success alert is shown and navigation
goes to `"/"`; otherwise the rejection is thrown to the `catch` block. -/
def registerTry (userId password : String) (net : NetResult) :
    List Effect × Option NetResult :=
  if axiosResolves net then
    ([Effect.post registerUrl userId password,
      Effect.alert registerSuccessAlert,
      Effect.navigate "/"], none)
  else
    ([Effect.post registerUrl userId password], some net)

/-- The `catch` block of `handleRegister` (part_000 lines 22-28). -/
def registerCatch (err : NetResult) : List Effect :=
  if jsTruthy (errDetail err) then
    [Effect.setError ((errDetail err).getD "")]
  else
    [Effect.setError genericRegisterError]

/-- `handleRegister` (part_000 lines 11-29). -/
def handleRegister (userId password : String) (net : NetResult) :
    List Effect × Option NetResult :=
  match registerTry userId password net with
  | (effs, none) => (Effect.setError "" :: effs, none)
  | (effs, some err) => (Effect.setError "" :: (effs ++ registerCatch err), none)

/-- The effects performed by one login submission. -/
def loginTrace (userId password : String) (net : NetResult) : List Effect :=
  (handleLogin userId password net).1

/-- The effects performed by one registration submission. -/
def registerTrace (userId password : String) (net : NetResult) : List Effect :=
  (handleRegister userId password net).1

/-- The `onClick` of the "Sign up" span on the Login screen
(Login.jsx line 69): a bare navigation to `"/register"`. -/
def signUpClick : List Effect := [Effect.navigate "/register"]

/-- The `onClick` of the "Log in" span on the Register screen
(part_000 line 68): a bare navigation to `"/"`. -/
def logInClick : List Effect := [Effect.navigate "/"]

/-- The `onChange` of the User ID input on either screen. -/
def onChangeUserId (value : String) : List Effect := [Effect.setUserId value]

/-- The `onChange` of the Password input on either screen. -/
def onChangePassword (value : String) : List Effect := [Effect.setPassword value]

/-- Both inputs of each form carry the HTML `required` attribute
(Login.jsx lines 45 and 55, part_000 lines 44 and 54): the browser fires
the form's submit event only when every required input is non-empty. -/
def requiredFieldsOk (userId password : String) : Bool :=
  !(userId == "") && !(password == "")

/-- A login form submission as gated by the browser: the handler runs only
when both required fields are non-empty. -/
def submitLoginForm (userId password : String) (net : NetResult) : List Effect :=
  if requiredFieldsOk userId password then loginTrace userId password net else []

/-- A registration form submission as gated by the browser. -/
def submitRegisterForm (userId password : String) (net : NetResult) : List Effect :=
  if requiredFieldsOk userId password then registerTrace userId password net else []

/-- The observable client state: the screen's three string fields, the
durable `localStorage` contents, the current route, and the alerts shown
so far. -/
structure World where
  userId : String
  password : String
  error : String
  storage : List (String × String)
  route : String
  alerts : List String
deriving DecidableEq, Repr

/-- `localStorage.setItem`: replace the entry for the key, or append. -/
def storeWrite (s : List (String × String)) (k v : String) :
    List (String × String) :=
  match s with
  | [] => [(k, v)]
  | (k1, v1) :: rest =>
    if k1 = k then (k, v) :: rest else (k1, v1) :: storeWrite rest k v

/-- `localStorage.getItem`. -/
def storeRead (s : List (String × String)) (k : String) : Option String :=
  match s with
  | [] => none
  | (k1, v1) :: rest => if k1 = k then some v1 else storeRead rest k

/-- The state transition of a single effect. -/
def applyEffect (w : World) : Effect → World
  | Effect.setUserId v => { w with userId := v }
  | Effect.setPassword v => { w with password := v }
  | Effect.setError v => { w with error := v }
  | Effect.post _ _ _ => w
  | Effect.setStorage k v => { w with storage := storeWrite w.storage k v }
  | Effect.navigate r => { w with route := r }
  | Effect.alert m => { w with alerts := w.alerts ++ [m] }

/-- Run a list of effects from a starting state. -/
def run (w : World) (effs : List Effect) : World :=
  effs.foldl applyEffect w

/-- The POST requests contained in an effect trace, with url and body. -/
def posts : List Effect → List (String × String × String)
  | [] => []
  | Effect.post url u p :: rest => (url, u, p) :: posts rest
  | _ :: rest => posts rest

/-- The durable storage writes contained in an effect trace. -/
def storageWrites : List Effect → List (String × String)
  | [] => []
  | Effect.setStorage k v :: rest => (k, v) :: storageWrites rest
  | _ :: rest => storageWrites rest

/-- A fresh world, as on first render of either screen. -/
def initWorld : World :=
  { userId := "", password := "", error := "", storage := [],
    route := "/", alerts := [] }

theorem storeRead_storeWrite (s : List (String × String)) (k v : String) :
    storeRead (storeWrite s k v) k = some v := by
  induction s with
  | nil => simp [storeWrite, storeRead]
  | cons hd tl ih =>
    obtain ⟨k1, v1⟩ := hd
    by_cases h : k1 = k
    · simp [storeWrite, storeRead, h]
    · simp [storeWrite, storeRead, h, ih]

/-- C1: for every non-empty identifier and secret, when the login POST
gets a 2xx response, durable storage maps `"userId"` to exactly the
submitted identifier and the route becomes `"/profile"`. -/
theorem login_success_stores_id_and_navigates (u p : String) (s : Nat)
    (d : Option String) (w : World) (hu : u ≠ "") (hp : p ≠ "")
    (h2 : 200 ≤ s) (h3 : s < 300) :
    storeRead (run w (loginTrace u p (NetResult.response s d))).storage
      "userId" = some u ∧
    (run w (loginTrace u p (NetResult.response s d))).route = "/profile" := by
  have hres : axiosResolves (NetResult.response s d) = true := by
    simp [axiosResolves, h2, h3]
  simp [loginTrace, handleLogin, loginTry, hres, run, applyEffect,
    storeRead_storeWrite]

/-- Witness for C1 at identifier "bob", secret "x", status 200. -/
theorem login_success_stores_id_and_navigates_witness :
    storeRead (run initWorld
        (loginTrace "bob" "x" (NetResult.response 200 none))).storage
      "userId" = some "bob" ∧
    (run initWorld (loginTrace "bob" "x" (NetResult.response 200 none))).route
      = "/profile" :=
  login_success_stores_id_and_navigates "bob" "x" 200 none initWorld
    (by decide) (by decide) (by decide) (by decide)

/-- C3: every submission on either screen first sets the error message to
the empty string and only then issues the POST, whatever the eventual
response. -/
theorem submission_clears_error_before_request (u p : String)
    (net : NetResult) :
    (loginTrace u p net).take 2 =
      [Effect.setError "", Effect.post loginUrl u p] ∧
    (registerTrace u p net).take 2 =
      [Effect.setError "", Effect.post registerUrl u p] := by
  constructor <;>
    · simp only [loginTrace, registerTrace, handleLogin, handleRegister,
        loginTry, registerTry]
      cases h : axiosResolves net <;> simp

/-- C4: when the registration POST gets a 2xx response (such as 201),
exactly one success alert is shown and the route becomes `"/"`. -/
theorem register_success_alerts_and_navigates (u p : String) (s : Nat)
    (d : Option String) (w : World) (h2 : 200 ≤ s) (h3 : s < 300) :
    (run w (registerTrace u p (NetResult.response s d))).alerts =
      w.alerts ++ [registerSuccessAlert] ∧
    (run w (registerTrace u p (NetResult.response s d))).route = "/" := by
  have hres : axiosResolves (NetResult.response s d) = true := by
    simp [axiosResolves, h2, h3]
  simp [registerTrace, handleRegister, registerTry, hres, run, applyEffect]

/-- Witness for C4 at identifier "alice", secret "pw123", status 201. -/
theorem register_success_alerts_and_navigates_witness :
    (run initWorld
        (registerTrace "alice" "pw123" (NetResult.response 201 none))).alerts
      = initWorld.alerts ++ [registerSuccessAlert] ∧
    (run initWorld
        (registerTrace "alice" "pw123" (NetResult.response 201 none))).route
      = "/" :=
  register_success_alerts_and_navigates "alice" "pw123" 201 none initWorld
    (by decide) (by decide)

/-- C5: for every non-empty identifier and secret and every network
outcome, one submission issues exactly one POST, to the screen's fixed
endpoint, whose body carries the entered values unmodified. -/
theorem submission_posts_exactly_once (u p : String) (net : NetResult)
    (hu : u ≠ "") (hp : p ≠ "") :
    posts (loginTrace u p net) = [(loginUrl, u, p)] ∧
    posts (registerTrace u p net) = [(registerUrl, u, p)] := by
  constructor <;>
    · simp only [loginTrace, registerTrace, handleLogin, handleRegister,
        loginTry, registerTry]
      cases h : axiosResolves net <;>
        simp [posts, loginCatch, registerCatch] <;>
        cases hj : jsTruthy (errDetail net) <;> simp [posts]

/-- Witness for C5 at identifier "bob", secret "x", network failure. -/
theorem submission_posts_exactly_once_witness :
    posts (loginTrace "bob" "x" NetResult.networkFailure) =
      [(loginUrl, "bob", "x")] ∧
    posts (registerTrace "bob" "x" NetResult.networkFailure) =
      [(registerUrl, "bob", "x")] :=
  submission_posts_exactly_once "bob" "x" NetResult.networkFailure
    (by decide) (by decide)

/-- C6: the "Sign up" affordance on the login screen issues no POST and,
run from any state, changes none of the identifier, secret, error or
storage, while the route becomes `"/register"`. -/
theorem signup_affordance_navigates_only (w : World) :
    posts signUpClick = [] ∧
    (run w signUpClick).userId = w.userId ∧
    (run w signUpClick).password = w.password ∧
    (run w signUpClick).error = w.error ∧
    (run w signUpClick).storage = w.storage ∧
    (run w signUpClick).route = "/register" := by
  simp [signUpClick, posts, run, applyEffect]

/-- C7: a submission attempt with an empty identifier or an empty secret
is stopped by the required-field gate on either screen: no POST reaches
the network layer. -/
theorem empty_field_blocks_request (u p : String) (net : NetResult)
    (h : u = "" ∨ p = "") :
    posts (submitLoginForm u p net) = [] ∧
    posts (submitRegisterForm u p net) = [] := by
  have hreq : requiredFieldsOk u p = false := by
    rcases h with h | h <;> simp [requiredFieldsOk, h]
  simp [submitLoginForm, submitRegisterForm, hreq, posts]

/-- Witness for C7 at an empty identifier. -/
theorem empty_field_blocks_request_witness :
    posts (submitLoginForm "" "x" NetResult.networkFailure) = [] ∧
    posts (submitRegisterForm "" "x" NetResult.networkFailure) = [] :=
  empty_field_blocks_request "" "x" NetResult.networkFailure (Or.inl rfl)

/-- C8: for every submission and every network outcome, no exception
escapes either handler, and the trace contains exactly one POST — a
failing request is never retried within the submission. -/
theorem handler_catches_all_and_never_retries (u p : String)
    (net : NetResult) :
    (handleLogin u p net).2 = none ∧
    (handleRegister u p net).2 = none ∧
    (posts (loginTrace u p net)).length = 1 ∧
    (posts (registerTrace u p net)).length = 1 := by
  refine ⟨?_, ?_, ?_, ?_⟩ <;>
    · simp only [loginTrace, registerTrace, handleLogin, handleRegister,
        loginTry, registerTry]
      cases h : axiosResolves net <;>
        simp [posts, loginCatch, registerCatch] <;>
        cases hj : jsTruthy (errDetail net) <;> simp [posts]

/-- C2 as stated is false: a 400 response whose body carries the string
field `detail` with value `""` displays the generic message rather than
`""`, because the JavaScript test `if (err.response?.data?.detail)` treats
the empty string as falsy. -/
theorem detail_present_displayed_verbatim_counterexample :
    errDetail (NetResult.response 400 (some "")) = some "" ∧
    (run initWorld
        (loginTrace "a" "b" (NetResult.response 400 (some "")))).error =
      genericLoginError ∧
    genericLoginError ≠ "" := by
  refine ⟨rfl, rfl, by decide⟩

/-- C2 amended: on a failed request on either screen, a present and
non-empty `detail` string is displayed verbatim; when `detail` is absent
or is the empty string (including a network-level failure with no
response), the screen's fixed generic message is displayed. -/
theorem error_display_policy (u p : String) (net : NetResult) (w : World)
    (hfail : axiosResolves net = false) :
    (∀ d : String, errDetail net = some d → d ≠ "" →
      (run w (loginTrace u p net)).error = d ∧
      (run w (registerTrace u p net)).error = d) ∧
    (jsTruthy (errDetail net) = false →
      (run w (loginTrace u p net)).error = genericLoginError ∧
      (run w (registerTrace u p net)).error = genericRegisterError) := by
  constructor
  · intro d hd hne
    constructor <;>
      simp [loginTrace, registerTrace, handleLogin, handleRegister,
        loginTry, registerTry, hfail, loginCatch, registerCatch, hd,
        jsTruthy, hne, run, applyEffect]
  · intro hj
    constructor <;>
      simp [loginTrace, registerTrace, handleLogin, handleRegister,
        loginTry, registerTry, hfail, loginCatch, registerCatch, hj,
        run, applyEffect]

/-- Witness for the amended C2 at a 404 response with detail "boom". -/
theorem error_display_policy_witness :
    (run initWorld
        (loginTrace "a" "b" (NetResult.response 404 (some "boom")))).error =
      "boom" ∧
    (run initWorld
        (registerTrace "a" "b" (NetResult.response 404 (some "boom")))).error =
      "boom" :=
  (error_display_policy "a" "b" (NetResult.response 404 (some "boom"))
    initWorld (by decide)).1 "boom" rfl (by decide)

/-- C9: on a failed login submission the identifier and secret fields, the
durable storage, the route and the shown alerts are all unchanged; only
the error message changes, to the detail text or the generic message. -/
theorem login_failure_frame (u p : String) (net : NetResult) (w : World)
    (hfail : axiosResolves net = false) :
    (run w (loginTrace u p net)).userId = w.userId ∧
    (run w (loginTrace u p net)).password = w.password ∧
    (run w (loginTrace u p net)).storage = w.storage ∧
    (run w (loginTrace u p net)).route = w.route ∧
    (run w (loginTrace u p net)).alerts = w.alerts ∧
    (run w (loginTrace u p net)).error =
      (if jsTruthy (errDetail net) then (errDetail net).getD ""
       else genericLoginError) := by
  refine ⟨?_, ?_, ?_, ?_, ?_, ?_⟩ <;>
    · simp only [loginTrace, handleLogin, loginTry, hfail]
      cases hj : jsTruthy (errDetail net) <;>
        simp [loginCatch, hj, run, applyEffect]

/-- Witness for C9 at a network failure. -/
theorem login_failure_frame_witness :
    (run initWorld (loginTrace "bob" "x" NetResult.networkFailure)).userId =
      initWorld.userId ∧
    (run initWorld (loginTrace "bob" "x" NetResult.networkFailure)).storage =
      initWorld.storage ∧
    (run initWorld (loginTrace "bob" "x" NetResult.networkFailure)).route =
      initWorld.route :=
  ⟨(login_failure_frame "bob" "x" NetResult.networkFailure initWorld
      (by decide)).1,
   (login_failure_frame "bob" "x" NetResult.networkFailure initWorld
      (by decide)).2.2.1,
   (login_failure_frame "bob" "x" NetResult.networkFailure initWorld
      (by decide)).2.2.2.1⟩

/-- C10: across every code path of both screens — submissions under any
network outcome, the navigation affordances, and the input change handlers
— the only durable storage write is the login success path's write of the
identifier under `"userId"`; the registration screen never writes. -/
theorem only_storage_write_is_login_success (u p v : String)
    (net : NetResult) :
    storageWrites (registerTrace u p net) = [] ∧
    storageWrites (loginTrace u p net) =
      (if axiosResolves net then [("userId", u)] else []) ∧
    storageWrites signUpClick = [] ∧
    storageWrites logInClick = [] ∧
    storageWrites (onChangeUserId v) = [] ∧
    storageWrites (onChangePassword v) = [] := by
  refine ⟨?_, ?_, ?_, ?_, ?_, ?_⟩ <;>
    · simp only [loginTrace, registerTrace, handleLogin, handleRegister,
        loginTry, registerTry, signUpClick, logInClick, onChangeUserId,
        onChangePassword]
      cases h : axiosResolves net <;>
        simp [storageWrites, loginCatch, registerCatch] <;>
        cases hj : jsTruthy (errDetail net) <;> simp [storageWrites]

end MakeAHomie
